import Mathlib

/-!
Shallow embedding of the bearer-token validation logic of the repository:
* `src/vm-to-function/function-app-code/function_app.py` — `get_jwks_keys`
  (an `lru_cache(maxsize=1)` memoized JWKS fetch), `validate_jwt_token`
  (per-audience JWT validation through PyJWT 2.x `jwt.decode`), and the
  `HttpTrigger` handler (bearer extraction, audience trial loop, identity
  resolution, allow-list authorization, JSON responses).
* `src/entraid/scenario3/api/app.py` — the `validate_token` decorator
  (PyJWKClient key lookup, `jwt.decode` with audience/issuer verification
  disabled, then manual audience and issuer checks against fixed lists).

Modelling conventions:
* JSON Web Tokens are represented already parsed: an `Option JwtToken`
  (`none` = a string that does not parse as a JWT at all); the payload keeps
  exactly the claims the source reads.  RSA signatures are idealized: the JWK
  is an opaque string `key` and a signature is valid iff it equals
  `rs256Sign key payload`; this preserves all control flow of the source,
  which treats the cryptographic verdict as a boolean.
* Python truthiness on optional strings (`a or b`, `if allowed_client_id:`)
  is modelled by `truthy` / `pyOr`; `str.startswith` by `pyStartsWith`;
  `str.strip()` by `pyStrip`.
* `jwt.decode(..., algorithms=["RS256"], audience=aud, issuer=iss)` is
  embedded following PyJWT 2.x `api_jwt.py`: algorithm allow-list check,
  signature check, then registered-claim validation in PyJWT order
  iat (never fails for integer iat), nbf, exp, iss, aud.  An absent or empty
  `aud` claim raises `MissingRequiredClaimError` (a generic
  `InvalidTokenError`, not `InvalidAudienceError`); an absent `iss` likewise.
* JSON response bodies are association lists `List (String × JVal)`; nested
  dictionaries of the source are flattened with dotted keys
  (`"validation.client_id_match"`), and the ISO-8601 timestamp formatting of
  `iat`/`exp` is kept as the raw epoch numbers (`JVal.onat`), since no claim
  concerns the date rendering.  The `Bool` returned next to each
  `HttpResponse` records whether the JWKS key set was consulted
  (`get_jwks_keys` reached) while producing the response.
-/

/-- Python truthiness of an optional string: `None` and `""` are falsy. -/
def truthy : Option String → Bool
  | none => false
  | some s => s != ""

/-- Python `a or b` on optional strings: `a` if truthy, else `b`. -/
def pyOr (a b : Option String) : Option String :=
  if truthy a then a else b

/-- Python `s.startswith(pre)`. -/
def pyStartsWith (s pre : String) : Bool :=
  s.data.take pre.data.length == pre.data

/-- Python whitespace for `str.strip()` (space, tab, newline, CR, VT, FF). -/
def isPySpace (c : Char) : Bool :=
  c.toNat = 32 || c.toNat = 9 || c.toNat = 10 || c.toNat = 13 ||
  c.toNat = 11 || c.toNat = 12

/-- Python `s.strip()`: drop leading and trailing whitespace. -/
def pyStrip (s : String) : String :=
  ⟨((s.data.dropWhile isPySpace).reverse.dropWhile isPySpace).reverse⟩

/-- Python `x in l` for an optional string against a list of strings
(`None in l` is `False` for a list of strings). -/
def optMem : Option String → List String → Bool
  | none, _ => false
  | some s, l => l.contains s

/-- Python `str()` of an optional string as interpolated into an f-string:
`None` prints as `"None"`. -/
def pyShow : Option String → String
  | none => "None"
  | some s => s

/-- A single apostrophe, used in messages copied from the source. -/
def apos : String := String.singleton (Char.ofNat 39)

/-- Decoded JWT payload: exactly the claims the source code reads.  Absent
claims are `none` (Python `payload.get(...)` returning `None`). -/
structure Payload where
  aud : Option String := none
  iss : Option String := none
  exp : Option Nat := none
  nbf : Option Nat := none
  iat : Option Nat := none
  appid : Option String := none
  azp : Option String := none
  oid : Option String := none
  sub : Option String := none
deriving DecidableEq, Repr

/-- A parsed JWT: unverified header fields (`kid`, `alg`), payload, and the
signature value.  The signature is valid for JWK `key` iff it equals
`rs256Sign key payload`. -/
structure JwtToken where
  kid : Option String := none
  alg : String := "RS256"
  payload : Payload
  sig : String := ""
deriving DecidableEq, Repr

/-- Canonical encoding of an optional string inside the idealized signature. -/
def encOptS : Option String → String
  | none => "_"
  | some s => "+" ++ s

/-- Canonical encoding of an optional number inside the idealized signature. -/
def encOptN : Option Nat → String
  | none => "_"
  | some n => toString n

/-- Canonical payload encoding used by the idealized RS256 signature. -/
def encodePayload (p : Payload) : String :=
  encOptS p.aud ++ "|" ++ encOptS p.iss ++ "|" ++ encOptN p.exp ++ "|" ++
  encOptN p.nbf ++ "|" ++ encOptN p.iat ++ "|" ++ encOptS p.appid ++ "|" ++
  encOptS p.azp ++ "|" ++ encOptS p.oid ++ "|" ++ encOptS p.sub

/-- Idealized RS256 signature of a payload under a JWK (opaque string). -/
def rs256Sign (key : String) (p : Payload) : String :=
  "RS256|" ++ key ++ "|" ++ encodePayload p

/-- A JWKS document: association list from `kid` to the JWK. -/
abbrev Jwks := List (String × String)

/-- Loop from `validate_jwt_token` lines 49-53: find the key whose `kid`
matches the token header's `kid`. -/
def findKey : Jwks → String → Option String
  | [], _ => none
  | (k, v) :: rest, kid => if k = kid then some v else findKey rest kid

/-- Typed verification failures of `validate_jwt_token`
(function_app.py lines 40-84); each constructor corresponds to one early
return or one caught PyJWT exception. -/
inductive VErr where
  | malformedToken
  | missingKid
  | jwksFailed
  | keyNotFound (kid : String)
  | unsupportedAlg
  | invalidSignature
  | immatureToken
  | expired
  | missingIssClaim
  | invalidIssuer (tenant : String)
  | missingAudClaim
  | invalidAudience (expected : String)
  | noAttempt
deriving DecidableEq, Repr

/-- PyJWT `_validate_nbf`: fail when the `nbf` claim is in the future. -/
def nbfCheck (p : Payload) (now : Nat) : Option VErr :=
  match p.nbf with
  | some nbf => if now < nbf then some VErr.immatureToken else none
  | none => none

/-- PyJWT `_validate_exp`: fail when the `exp` claim is not in the future
(`exp <= now` with zero leeway raises `ExpiredSignatureError`). -/
def expCheck (p : Payload) (now : Nat) : Option VErr :=
  match p.exp with
  | some e => if e ≤ now then some VErr.expired else none
  | none => none

/-- The single issuer string `validate_jwt_token` accepts
(function_app.py line 64). -/
def singleIssuer (tenant : String) : String :=
  "https://sts.windows.net/" ++ tenant ++ "/"

/-- PyJWT `_validate_iss` with `issuer=singleIssuer tenant`: missing `iss`
raises `MissingRequiredClaimError`, a different `iss` raises
`InvalidIssuerError`. -/
def issClaimCheck (p : Payload) (tenant : String) : Option VErr :=
  match p.iss with
  | none => some VErr.missingIssClaim
  | some i => if i ≠ singleIssuer tenant then some (VErr.invalidIssuer tenant) else none

/-- PyJWT `_validate_aud` with a string `audience`: absent or empty `aud`
raises `MissingRequiredClaimError`, a non-matching `aud` raises
`InvalidAudienceError`; a string `aud` matches by exact equality. -/
def audClaimCheck (p : Payload) (expected : String) : Option VErr :=
  match p.aud with
  | none => some VErr.missingAudClaim
  | some a =>
    if a = "" then some VErr.missingAudClaim
    else if a = expected then none
    else some (VErr.invalidAudience expected)

/-- PyJWT 2.x `jwt.decode(token, key, algorithms=["RS256"], audience=expected,
issuer=singleIssuer tenant, options=all-verifications-on)` as called by
`validate_jwt_token` (function_app.py lines 59-71): algorithm allow-list,
signature, then registered claims in PyJWT order nbf, exp, iss, aud
(`iat` validation never fails on integer claims). -/
def decodeChecks (t : JwtToken) (key tenant expected : String) (now : Nat) :
    Except VErr Payload :=
  if t.alg ≠ "RS256" then Except.error VErr.unsupportedAlg
  else if t.sig ≠ rs256Sign key t.payload then Except.error VErr.invalidSignature
  else match nbfCheck t.payload now with
  | some e => Except.error e
  | none => match expCheck t.payload now with
    | some e => Except.error e
    | none => match issClaimCheck t.payload tenant with
      | some e => Except.error e
      | none => match audClaimCheck t.payload expected with
        | some e => Except.error e
        | none => Except.ok t.payload

/-- function_app.py `validate_jwt_token(token, tenant_id, expected_audience)`
for one audience candidate.  `tok = none` models a token string on which
`jwt.get_unverified_header` raises (caught by the final generic handler);
`jwks = none` models `get_jwks_keys` having returned `None`.  The `Bool`
records whether the JWKS was consulted (everything from line 44 on). -/
def validate_jwt_token (tok : Option JwtToken) (jwks : Option Jwks)
    (tenant expected : String) (now : Nat) : Except VErr Payload × Bool :=
  match tok with
  | none => (Except.error VErr.malformedToken, false)
  | some t =>
    match t.kid with
    | none => (Except.error VErr.missingKid, false)
    | some kid =>
      match jwks with
      | none => (Except.error VErr.jwksFailed, true)
      | some keys =>
        match findKey keys kid with
        | none => (Except.error (VErr.keyNotFound kid), true)
        | some key => (decodeChecks t key tenant expected now, true)

/-- Error message strings of `validate_jwt_token` (function_app.py
lines 41-84); `none` corresponds to `validation_error` still being Python
`None`.  Messages raised inside PyJWT and caught by the generic handler are
abbreviated to their stable prefix. -/
def errMessage : VErr → Option String
  | VErr.malformedToken => some "Token validation error: decode failed"
  | VErr.missingKid => some ("Token missing " ++ apos ++ "kid" ++ apos ++ " in header")
  | VErr.jwksFailed => some "Failed to retrieve public keys from Azure AD"
  | VErr.keyNotFound kid =>
      some ("Signing key with kid " ++ apos ++ kid ++ apos ++ " not found")
  | VErr.unsupportedAlg =>
      some "Token validation error: The specified alg value is not allowed"
  | VErr.invalidSignature => some "Invalid token signature"
  | VErr.immatureToken => some "Token validation error: The token is not yet valid (nbf)"
  | VErr.expired => some "Token has expired"
  | VErr.missingIssClaim =>
      some "Token validation error: Token is missing the \"iss\" claim"
  | VErr.invalidIssuer tenant =>
      some ("Invalid issuer. Expected: " ++ singleIssuer tenant)
  | VErr.missingAudClaim =>
      some "Token validation error: Token is missing the \"aud\" claim"
  | VErr.invalidAudience expected =>
      some ("Invalid audience. Expected: " ++ expected)
  | VErr.noAttempt => none

/-- Audience candidate list built by `HttpTrigger` (function_app.py
lines 131-135): `api://{app_id}`, bare `{app_id}`, `{app_id}/.default`. -/
def expected_audiences (app_id : String) : List String :=
  ["api://" ++ app_id, app_id, app_id ++ "/.default"]

/-- The audience trial loop of `HttpTrigger` (function_app.py lines 137-146):
call `validate_jwt_token` for each audience candidate in order, stop at the
first success, keep the error of the most recent failed attempt.  The `Bool`
accumulates whether any attempt consulted the JWKS.  An empty candidate list
leaves `decoded_token = None` and `validation_error = None`
(`VErr.noAttempt`); the handler always passes a three-element list. -/
def tryAudiences (tok : Option JwtToken) (jwks : Option Jwks) (tenant : String)
    (now : Nat) : List String → Except VErr Payload × Bool
  | [] => (Except.error VErr.noAttempt, false)
  | a :: rest =>
    match validate_jwt_token tok jwks tenant a now with
    | (Except.ok p, f) => (Except.ok p, f)
    | (Except.error e, f) =>
      match rest with
      | [] => (Except.error e, f)
      | b :: rs =>
        match tryAudiences tok jwks tenant now (b :: rs) with
        | (r2, f2) => (r2, f || f2)

/-- Values of the (flattened) JSON response bodies. -/
inductive JVal where
  | s (v : String)
  | os (v : Option String)
  | b (v : Bool)
  | onat (v : Option Nat)
  | arr (v : List String)
deriving DecidableEq, Repr

/-- A flattened JSON object: association list from dotted key to value. -/
abbrev Body := List (String × JVal)

/-- Association-list lookup on a response body. -/
def bodyGet (k : String) : Body → Option JVal
  | [] => none
  | (k2, v) :: rest => if k2 = k then some v else bodyGet k rest

/-- An HTTP response: status code and flattened JSON body. -/
structure HttpResponse where
  status : Nat
  body : Body
deriving DecidableEq, Repr

/-- Environment configuration read by `HttpTrigger` (function_app.py
lines 97-100); unset variables are the empty string. -/
structure Config where
  allowed_client_id : String := ""
  test_client_id : String := ""
  tenant_id : String := ""
  app_id : String := ""
deriving DecidableEq, Repr

/-- Resolved caller client id (function_app.py line 180):
`caller_appid or caller_azp or caller_oid` under Python truthiness. -/
def resolveClientId (appid azp oid : Option String) : Option String :=
  pyOr appid (pyOr azp oid)

/-- Allow-list construction (function_app.py lines 185-189): append the
stripped `ALLOWED_CLIENT_ID` and `TEST_CLIENT_ID` when truthy. -/
def buildAllowedIds (allowed_client_id test_client_id : String) : List String :=
  (if allowed_client_id != "" then [pyStrip allowed_client_id] else []) ++
  (if test_client_id != "" then [pyStrip test_client_id] else [])

/-- Caller-type classification (function_app.py lines 216-224).  Python
compares `caller_client_id == allowed_client_id` directly (`None` never
equals a string; empty strings compare equal). -/
def callerType (cfg : Config) (caller appid oid : Option String) : String :=
  if caller == some cfg.allowed_client_id then "VM managed identity"
  else if caller == some cfg.test_client_id then "Test service principal"
  else if truthy appid then "Service principal"
  else if truthy oid then "User"
  else "unknown"

/-- Claim reported as used for identity (function_app.py line 250). -/
def claimUsed (p : Payload) : String :=
  if truthy p.appid then "appid" else if truthy p.azp then "azp" else "oid"

/-- Body of the 500 configuration-error response (function_app.py
lines 104-111). -/
def configErrorBody : Body :=
  [("error", JVal.s "Configuration error"),
   ("message", JVal.s "Function app not properly configured")]

/-- Body of the 401 missing-bearer response (function_app.py lines 117-124). -/
def authRequiredBody : Body :=
  [("error", JVal.s "Authentication required"),
   ("message", JVal.s "Request must include Bearer token in Authorization header")]

/-- Debug audience echoed in 401 bodies (function_app.py lines 152-157): the
`aud` claim decoded without signature verification, or a fixed marker when
the token does not decode at all. -/
def receivedAudience : Option JwtToken → Option String
  | some t => t.payload.aud
  | none => some "Unable to decode token"

/-- Body of the 401 invalid-token response (function_app.py lines 159-169). -/
def invalidTokenBody (e : VErr) (tok : Option JwtToken) (auds : List String) : Body :=
  [("error", JVal.s "Invalid token"),
   ("message", JVal.os (errMessage e)),
   ("received_audience", JVal.os (receivedAudience tok)),
   ("expected_audiences", JVal.arr auds),
   ("hint", JVal.s "Token audience must match APP_ID or api://APP_ID")]

/-- Body of the 403 forbidden response (function_app.py lines 194-211),
nested `debug_info` flattened with dotted keys. -/
def forbiddenBody (caller : Option String) (allowed : List String) (p : Payload) : Body :=
  [("error", JVal.s "Forbidden"),
   ("message", JVal.s ("Client ID " ++ pyShow caller ++
      " is not authorized to call this function")),
   ("debug_info.caller_client_id", JVal.os caller),
   ("debug_info.allowed_client_ids", JVal.arr allowed),
   ("debug_info.token_claims.appid", JVal.os p.appid),
   ("debug_info.token_claims.azp", JVal.os p.azp),
   ("debug_info.token_claims.oid", JVal.os p.oid),
   ("debug_info.token_claims.sub", JVal.os p.sub)]

/-- Body of the 200 success response (function_app.py lines 227-253), nested
objects flattened with dotted keys; `issued_at`/`expires_at` carried as the
raw epoch claims and the wall-clock `timestamp` field omitted. -/
def successBody (cfg : Config) (p : Payload) (caller : Option String)
    (allowed : List String) : Body :=
  [("message", JVal.s "Successfully authenticated!"),
   ("authenticated", JVal.b true),
   ("caller_info.client_id", JVal.os caller),
   ("caller_info.caller_type", JVal.s (callerType cfg caller p.appid p.oid)),
   ("caller_info.object_id", JVal.os p.oid),
   ("caller_info.subject", JVal.os p.sub),
   ("caller_info.appid_claim", JVal.os p.appid),
   ("caller_info.azp_claim", JVal.os p.azp),
   ("token_info.audience", JVal.os p.aud),
   ("token_info.issuer", JVal.os p.iss),
   ("token_info.issued_at", JVal.onat p.iat),
   ("token_info.expires_at", JVal.onat p.exp),
   ("validation.allowed_vm_client_id", JVal.s cfg.allowed_client_id),
   ("validation.allowed_test_client_id", JVal.s cfg.test_client_id),
   ("validation.all_allowed_ids", JVal.arr allowed),
   ("validation.client_id_match",
      JVal.b (if allowed.isEmpty then true else optMem caller allowed)),
   ("validation.claim_used", JVal.s (claimUsed p)),
   ("validation.method", JVal.s "code-based-jwt-validation")]

/-- The `HttpTrigger` handler (function_app.py lines 87-259).  Inputs: the
environment configuration, the raw `Authorization` header (absent header =
`""`, Python `req.headers.get('Authorization', '')`), the parse of the text
after `"Bearer "` (`none` when it is not a JWT), the JWKS that
`get_jwks_keys` would return during this request (`none` = fetch failure),
and the verification time.  Returns the response and whether the JWKS was
consulted. -/
def HttpTrigger (cfg : Config) (authHeader : String) (tok : Option JwtToken)
    (jwks : Option Jwks) (now : Nat) : HttpResponse × Bool :=
  if cfg.tenant_id = "" ∨ cfg.app_id = "" then
    ({ status := 500, body := configErrorBody }, false)
  else if !(pyStartsWith authHeader "Bearer ") then
    ({ status := 401, body := authRequiredBody }, false)
  else
    let auds := expected_audiences cfg.app_id
    match tryAudiences tok jwks cfg.tenant_id now auds with
    | (Except.error e, fetched) =>
      ({ status := 401, body := invalidTokenBody e tok auds }, fetched)
    | (Except.ok p, fetched) =>
      let caller := resolveClientId p.appid p.azp p.oid
      let allowed := buildAllowedIds cfg.allowed_client_id cfg.test_client_id
      if !allowed.isEmpty && !(optMem caller allowed) then
        ({ status := 403, body := forbiddenBody caller allowed p }, fetched)
      else
        ({ status := 200, body := successBody cfg p caller allowed }, fetched)

/-- Configuration of the scenario3 API (app.py lines 15-16). -/
structure S3Config where
  tenant_id : String := ""
  client_id : String := ""
deriving DecidableEq, Repr

/-- Valid audiences of the scenario3 API (app.py lines 21-24): bare client id
first, then `api://{client_id}`. -/
def validAudiences (client_id : String) : List String :=
  [client_id, "api://" ++ client_id]

/-- Valid issuers of the scenario3 API (app.py lines 71-75): three accepted
issuer strings. -/
def validIssuers (tenant_id : String) : List String :=
  ["https://sts.windows.net/" ++ tenant_id ++ "/",
   "https://login.microsoftonline.com/" ++ tenant_id ++ "/v2.0",
   "https://login.microsoftonline.com/" ++ tenant_id ++ "/"]

/-- Failures of the scenario3 `validate_token` decorator (app.py lines
37-88); every failure is answered with HTTP 401. -/
inductive S3Err where
  | missingAuthHeader
  | keyLookupFailed
  | unsupportedAlg
  | invalidSignature
  | immatureToken
  | expired
  | invalidAudience (got : Option String)
  | invalidIssuer (got : Option String)
deriving DecidableEq, Repr

/-- The scenario3 `validate_token` decorator (app.py lines 32-92): bearer
check, PyJWKClient key lookup by the token header's `kid`, `jwt.decode` with
`algorithms=["RS256"]` and audience/issuer verification disabled (signature,
`nbf`, `exp` still checked), then the manual audience check against
`validAudiences` followed by the manual issuer check against `validIssuers`.
All PyJWKClient failures (unparseable token, missing `kid`, unreachable JWKS,
unknown `kid`) surface as one caught exception branch. -/
def scenario3Validate (cfg : S3Config) (authHeader : String)
    (tok : Option JwtToken) (jwks : Option Jwks) (now : Nat) :
    Except S3Err Payload :=
  if !(pyStartsWith authHeader "Bearer ") then Except.error S3Err.missingAuthHeader
  else match tok with
  | none => Except.error S3Err.keyLookupFailed
  | some t =>
    match t.kid with
    | none => Except.error S3Err.keyLookupFailed
    | some kid =>
      match jwks with
      | none => Except.error S3Err.keyLookupFailed
      | some keys =>
        match findKey keys kid with
        | none => Except.error S3Err.keyLookupFailed
        | some key =>
          if t.alg ≠ "RS256" then Except.error S3Err.unsupportedAlg
          else if t.sig ≠ rs256Sign key t.payload then Except.error S3Err.invalidSignature
          else match nbfCheck t.payload now with
          | some _ => Except.error S3Err.immatureToken
          | none => match expCheck t.payload now with
            | some _ => Except.error S3Err.expired
            | none =>
              if !(optMem t.payload.aud (validAudiences cfg.client_id)) then
                Except.error (S3Err.invalidAudience t.payload.aud)
              else if !(optMem t.payload.iss (validIssuers cfg.tenant_id)) then
                Except.error (S3Err.invalidIssuer t.payload.iss)
              else Except.ok t.payload

/-- Error body of the scenario3 decorator for each failure (app.py lines 40,
64, 78, 84-88); interpolated diagnostic suffixes are abbreviated. -/
def s3ErrBody : S3Err → Body
  | S3Err.missingAuthHeader => [("error", JVal.s "Missing or invalid Authorization header")]
  | S3Err.keyLookupFailed => [("error", JVal.s "Token validation failed: key lookup")]
  | S3Err.unsupportedAlg => [("error", JVal.s "Invalid token: algorithm not allowed")]
  | S3Err.invalidSignature => [("error", JVal.s "Invalid token: signature verification failed")]
  | S3Err.immatureToken => [("error", JVal.s "Invalid token: not yet valid")]
  | S3Err.expired => [("error", JVal.s "Token has expired")]
  | S3Err.invalidAudience got =>
      [("error", JVal.s ("Invalid audience: " ++ pyShow got))]
  | S3Err.invalidIssuer got =>
      [("error", JVal.s ("Invalid issuer: " ++ pyShow got))]

/-- HTTP status and error body the scenario3 decorator answers with when
validation fails (all branches return 401), or the wrapped route on success. -/
def s3Response (cfg : S3Config) (authHeader : String) (tok : Option JwtToken)
    (jwks : Option Jwks) (now : Nat) : Nat × Body :=
  match scenario3Validate cfg authHeader tok jwks now with
  | Except.error e => (401, s3ErrBody e)
  | Except.ok p =>
      (200, [("message", JVal.s "Successfully validated token"),
             ("claims.aud", JVal.os p.aud),
             ("claims.iss", JVal.os p.iss),
             ("claims.oid", JVal.os p.oid),
             ("claims.appid", JVal.os p.appid)])

/-- State of the `functools.lru_cache(maxsize=1)` on `get_jwks_keys`
(function_app.py line 12): at most one memoized argument/result pair; the
result may be a cached `None` (failed fetch). -/
structure JwksCache where
  entry : Option (String × Option Jwks) := none
deriving DecidableEq, Repr

/-- One call to the memoized `get_jwks_keys` (function_app.py lines 12-25).
`world k t` is what fetch number `k` of tenant `t` would return (`none` =
network failure / timeout / non-2xx, which the function turns into a cached
`None`).  Returns the result, the new cache state, the new fetch counter,
and whether a network fetch was performed. -/
def get_jwks_keys (world : Nat → String → Option Jwks) (fetchCount : Nat)
    (c : JwksCache) (tenant : String) :
    Option Jwks × JwksCache × Nat × Bool :=
  match c.entry with
  | some (t, r) =>
    if t = tenant then (r, c, fetchCount, false)
    else
      let r2 := world fetchCount tenant
      (r2, { entry := some (tenant, r2) }, fetchCount + 1, true)
  | none =>
    let r2 := world fetchCount tenant
    (r2, { entry := some (tenant, r2) }, fetchCount + 1, true)

/-- Run a sequence of `get_jwks_keys` calls from the empty cache, collecting
each call's result and fetched-flag. -/
def runJwksCalls (world : Nat → String → Option Jwks) :
    List String → JwksCache → Nat → List (Option Jwks × Bool)
  | [], _, _ => []
  | t :: rest, c, k =>
    match get_jwks_keys world k c t with
    | (r, c2, k2, fetched) => (r, fetched) :: runJwksCalls world rest c2 k2

/-- Claimed identity-resolution rule of C1, formalized from the claim's own
words for comparison with `resolveClientId` (which embeds the source):
appid if present and non-empty, else azp if present, else oid if present,
else unknown. -/
def specResolveClientId (appid azp oid : Option String) : Option String :=
  if truthy appid then appid
  else if azp.isSome then azp
  else if oid.isSome then oid
  else none

deriving instance DecidableEq for Except

/-- Whether an `Except` result is a success. -/
def exOk {ε α : Type} : Except ε α → Bool
  | Except.ok _ => true
  | Except.error _ => false

/-- Demo payload: a fully valid v1 access token for tenant `t1`, app `app1`,
issued to service principal `svc1`. -/
def demoPayload : Payload :=
  { aud := some "api://app1", iss := some "https://sts.windows.net/t1/",
    exp := some 2000, nbf := some 0, iat := some 10,
    appid := some "svc1", azp := none, oid := some "user1", sub := some "subj" }

/-- Demo JWK. -/
def demoKey : String := "key1"

/-- Demo key set holding `demoKey` under kid `kid1`. -/
def demoJwks : Jwks := [("kid1", demoKey)]

/-- Demo token: `demoPayload` correctly signed with `demoKey`. -/
def demoToken : JwtToken :=
  { kid := some "kid1", alg := "RS256", payload := demoPayload,
    sig := rs256Sign demoKey demoPayload }

/-- Demo function-app configuration with an empty allow-list. -/
def demoCfg : Config := { tenant_id := "t1", app_id := "app1" }

/-- Demo scenario3 configuration. -/
def demoS3Cfg : S3Config := { tenant_id := "t1", client_id := "app1" }

/-- Success of the audience trial loop is exactly success of some single
attempt: the loop stops at the first success and otherwise keeps the last
error. -/
theorem tryAudiences_ok_eq_any (tok : Option JwtToken) (jwks : Option Jwks)
    (tenant : String) (now : Nat) (l : List String) :
    exOk (tryAudiences tok jwks tenant now l).1 =
      l.any (fun a => exOk (validate_jwt_token tok jwks tenant a now).1) := by
  induction l with
  | nil => rfl
  | cons a rest ih =>
    cases hv : validate_jwt_token tok jwks tenant a now with
    | mk r f =>
      cases r with
      | ok p => simp [tryAudiences, hv, exOk]
      | error e =>
        cases rest with
        | nil => simp [tryAudiences, hv, exOk]
        | cons b rs =>
          cases ht : tryAudiences tok jwks tenant now (b :: rs) with
          | mk r2 f2 =>
            rw [ht] at ih
            simpa [tryAudiences, hv, ht, exOk] using ih

/-- List.any is invariant under permutation. -/
theorem any_perm_eq {α : Type} (f : α → Bool) {l l' : List α} (h : l.Perm l') :
    l.any f = l'.any f := by
  cases h1 : l.any f <;> cases h2 : l'.any f <;> try rfl
  · rw [List.any_eq_true] at h2
    obtain ⟨x, hx, hfx⟩ := h2
    have : l.any f = true := List.any_eq_true.mpr ⟨x, h.mem_iff.mpr hx, hfx⟩
    rw [h1] at this
    exact absurd this (by simp)
  · rw [List.any_eq_true] at h1
    obtain ⟨x, hx, hfx⟩ := h1
    have : l'.any f = true := List.any_eq_true.mpr ⟨x, h.mem_iff.mp hx, hfx⟩
    rw [h2] at this
    exact absurd this (by simp)

/-- C1 counterexample: the claim says the resolved client id is the `azp`
claim whenever `azp` is present (with no non-emptiness proviso, unlike
`appid`).  The code computes `appid or azp or oid` under Python truthiness,
so a present-but-empty `azp` falls through to `oid`: on the claims set
`appid` absent, `azp = ""`, `oid = "user1"` the code resolves `"user1"`
while the claim's rule yields `""`. -/
theorem C1_counterexample :
    resolveClientId none (some "") (some "user1") = some "user1" ∧
    specResolveClientId none (some "") (some "user1") = some "" ∧
    resolveClientId none (some "") (some "user1") ≠
      specResolveClientId none (some "") (some "user1") := by decide

/-- C1 amended: the resolved caller client id is the `appid` claim if present
and non-empty; otherwise the `azp` claim if present and non-empty; otherwise
the `oid` claim (an absent or empty `oid` then propagates as empty/unknown).
The claim's two scenarios hold: `appid="svc1"`/`oid="user1"` resolves to
`"svc1"`, and no `appid`/`azp="mi-1"`/`oid="user1"` resolves to `"mi-1"`. -/
theorem C1_amended (appid azp oid : Option String) :
    resolveClientId appid azp oid =
      (if truthy appid then appid else if truthy azp then azp else oid) ∧
    resolveClientId (some "svc1") none (some "user1") = some "svc1" ∧
    resolveClientId none (some "mi-1") (some "user1") = some "mi-1" :=
  ⟨rfl, by decide, by decide⟩

/-- C2 counterexample: a token whose `aud` matches no accepted audience and
whose `iss` matches no accepted issuer, but whose signature and expiry are
valid.  The scenario3 verifier (cited by the claim) reports the audience
failure for it, not the issuer failure, refuting both the claimed
issuer-before-audience check order and the claim that the reported failure
is never the audience failure. -/
def c2Payload : Payload :=
  { aud := some "bad-aud", iss := some "https://evil.example/t1/",
    exp := some 2000, iat := some 10, oid := some "user1" }

/-- Token carrying `c2Payload`, correctly signed with `demoKey`. -/
def c2Token : JwtToken :=
  { kid := some "kid1", payload := c2Payload, sig := rs256Sign demoKey c2Payload }

/-- C2 counterexample theorem: `c2Token` violates both the issuer and the
audience check, yet the scenario3 verifier reports the audience failure. -/
theorem C2_counterexample :
    optMem c2Payload.iss (validIssuers demoS3Cfg.tenant_id) = false ∧
    optMem c2Payload.aud (validAudiences demoS3Cfg.client_id) = false ∧
    scenario3Validate demoS3Cfg "Bearer x" (some c2Token) (some demoJwks) 1000 =
      Except.error (S3Err.invalidAudience (some "bad-aud")) := by decide

/-- C2 amended: both verifiers check the signature (accepting only RS256)
first and the expiration before any issuer or audience comparison, failing
fast; but the relative order of issuer and audience is not issuer-first
everywhere.  The scenario3 verifier checks audience before issuer, so a
token violating both checks reports the audience failure there; the function
app's per-audience `jwt.decode` (PyJWT 2.x registered-claim order) checks
issuer before audience and reports the issuer failure. -/
theorem C2_amended
    (cfg : S3Config) (hdr : String) (t : JwtToken) (keys : Jwks) (kid key : String)
    (now : Nat)
    (hh : pyStartsWith hdr "Bearer " = true)
    (hkid : t.kid = some kid) (hfind : findKey keys kid = some key)
    (halg : t.alg = "RS256") (hsig : t.sig = rs256Sign key t.payload)
    (hnbf : nbfCheck t.payload now = none) (hexp : expCheck t.payload now = none)
    (haud : optMem t.payload.aud (validAudiences cfg.client_id) = false)
    (_hiss : optMem t.payload.iss (validIssuers cfg.tenant_id) = false)
    (t2 : JwtToken) (key2 tenant2 expected2 i2 : String) (now2 : Nat)
    (halg2 : t2.alg = "RS256") (hsig2 : t2.sig = rs256Sign key2 t2.payload)
    (hnbf2 : nbfCheck t2.payload now2 = none) (hexp2 : expCheck t2.payload now2 = none)
    (hiss2 : t2.payload.iss = some i2) (hne2 : i2 ≠ singleIssuer tenant2) :
    scenario3Validate cfg hdr (some t) (some keys) now =
      Except.error (S3Err.invalidAudience t.payload.aud) ∧
    decodeChecks t2 key2 tenant2 expected2 now2 =
      Except.error (VErr.invalidIssuer tenant2) := by
  constructor
  · simp [scenario3Validate, hh, hkid, hfind, halg, hsig, hnbf, hexp, haud]
  · simp [decodeChecks, halg2, hsig2, hnbf2, hexp2, issClaimCheck, hiss2, hne2]

/-- C2 witness: the amended theorem applied to `c2Token` (scenario3 part) and
to a token with a valid signature, future expiry and an issuer differing
from the single accepted string (function-app part). -/
theorem C2_amended_witness :
    scenario3Validate demoS3Cfg "Bearer x" (some c2Token) (some demoJwks) 1000 =
      Except.error (S3Err.invalidAudience c2Token.payload.aud) ∧
    decodeChecks c2Token demoKey "t1" "api://app1" 1000 =
      Except.error (VErr.invalidIssuer "t1") :=
  C2_amended demoS3Cfg "Bearer x" c2Token demoJwks "kid1" demoKey 1000
    (by decide) (by decide) (by decide) (by decide) (by decide) (by decide)
    (by decide) (by decide) (by decide)
    c2Token demoKey "t1" "api://app1" "https://evil.example/t1/" 1000
    (by decide) (by decide) (by decide) (by decide) (by decide) (by decide)

/-- C3: the audience candidates are exactly `api://{app_id}`, bare
`{app_id}`, `{app_id}/.default` in that order; the per-attempt audience
check passes on an exact match of the token's `aud` claim; and the success
of the whole trial loop (and hence of verification) is invariant under
permutation of the candidate list — only which attempt succeeds first can
change. -/
theorem C3_theorem
    (app_id : String) (p : Payload) (a : String)
    (tok : Option JwtToken) (jwks : Option Jwks) (tenant : String) (now : Nat)
    (l l' : List String) (hperm : l.Perm l')
    (ha : a ≠ "") (hmatch : p.aud = some a) :
    expected_audiences app_id = ["api://" ++ app_id, app_id, app_id ++ "/.default"] ∧
    audClaimCheck p a = none ∧
    exOk (tryAudiences tok jwks tenant now l).1 =
      exOk (tryAudiences tok jwks tenant now l').1 := by
  refine ⟨rfl, ?_, ?_⟩
  · simp [audClaimCheck, hmatch, ha]
  · rw [tryAudiences_ok_eq_any, tryAudiences_ok_eq_any]
    exact any_perm_eq _ hperm

/-- C3 witness: the candidate list for `app1`, the demo token whose `aud`
matches the first candidate, and a permutation of the candidate list under
which the loop outcome is unchanged. -/
theorem C3_witness :
    expected_audiences "app1" = ["api://app1", "app1", "app1/.default"] ∧
    audClaimCheck demoPayload "api://app1" = none ∧
    exOk (tryAudiences (some demoToken) (some demoJwks) "t1" 1000
        ["api://app1", "app1", "app1/.default"]).1 =
      exOk (tryAudiences (some demoToken) (some demoJwks) "t1" 1000
        ["app1/.default", "app1", "api://app1"]).1 :=
  C3_theorem "app1" demoPayload "api://app1" (some demoToken) (some demoJwks)
    "t1" 1000 ["api://app1", "app1", "app1/.default"]
    ["app1/.default", "app1", "api://app1"] (by decide) (by decide) (by decide)

/-- C4 counterexample payload: valid signature target, future expiry, valid
audience, but issuer `https://login.microsoftonline.com/t1/v2.0`, which
differs from the claimed single accepted string
`https://sts.windows.net/t1/`. -/
def c4Payload : Payload :=
  { aud := some "app1", iss := some "https://login.microsoftonline.com/t1/v2.0",
    exp := some 2000, oid := some "user1" }

/-- Token carrying `c4Payload`, correctly signed with `demoKey`. -/
def c4Token : JwtToken :=
  { kid := some "kid1", payload := c4Payload, sig := rs256Sign demoKey c4Payload }

/-- C4 counterexample: the scenario3 verifier (cited by the claim) accepts
`c4Token` although its `iss` differs from the single claimed issuer string,
so token verification does not accept exactly one issuer string across the
cited code, and a differing `iss` does not imply an invalid-issuer
failure. -/
theorem C4_counterexample :
    c4Payload.iss ≠ some (singleIssuer "t1") ∧
    scenario3Validate demoS3Cfg "Bearer x" (some c4Token) (some demoJwks) 1000 =
      Except.ok c4Payload := by decide

/-- C4 amended: the function app's `validate_jwt_token` accepts exactly one
issuer string `https://sts.windows.net/{tenant_id}/` — with signature,
expiry and the attempted audience otherwise valid, that `iss` passes and any
other `iss` fails with the invalid-issuer error (regardless of the audience
claim) — while the scenario3 verifier accepts a list of three issuer
strings. -/
theorem C4_amended
    (t : JwtToken) (key tenant expected : String) (now : Nat)
    (halg : t.alg = "RS256") (hsig : t.sig = rs256Sign key t.payload)
    (hnbf : nbfCheck t.payload now = none) (hexp : expCheck t.payload now = none)
    (hiss : t.payload.iss = some (singleIssuer tenant))
    (hane : expected ≠ "") (haud : t.payload.aud = some expected)
    (t2 : JwtToken) (key2 tenant2 expected2 i2 : String) (now2 : Nat)
    (halg2 : t2.alg = "RS256") (hsig2 : t2.sig = rs256Sign key2 t2.payload)
    (hnbf2 : nbfCheck t2.payload now2 = none) (hexp2 : expCheck t2.payload now2 = none)
    (hiss2 : t2.payload.iss = some i2) (hne2 : i2 ≠ singleIssuer tenant2) :
    decodeChecks t key tenant expected now = Except.ok t.payload ∧
    decodeChecks t2 key2 tenant2 expected2 now2 =
      Except.error (VErr.invalidIssuer tenant2) ∧
    validIssuers tenant2 =
      ["https://sts.windows.net/" ++ tenant2 ++ "/",
       "https://login.microsoftonline.com/" ++ tenant2 ++ "/v2.0",
       "https://login.microsoftonline.com/" ++ tenant2 ++ "/"] := by
  refine ⟨?_, ?_, rfl⟩
  · simp [decodeChecks, halg, hsig, hnbf, hexp, issClaimCheck, hiss,
      audClaimCheck, haud, hane]
  · simp [decodeChecks, halg2, hsig2, hnbf2, hexp2, issClaimCheck, hiss2, hne2]

/-- C4 witness: the amended theorem applied to the demo token (accepted
issuer) and to `c4Token` (issuer `login.microsoftonline.com/t1/v2.0`, which
the function-app verifier rejects with the invalid-issuer error even though
its audience is valid). -/
theorem C4_amended_witness :
    decodeChecks demoToken demoKey "t1" "api://app1" 1000 =
      Except.ok demoToken.payload ∧
    decodeChecks c4Token demoKey "t1" "app1" 1000 =
      Except.error (VErr.invalidIssuer "t1") ∧
    validIssuers "t1" =
      ["https://sts.windows.net/t1/",
       "https://login.microsoftonline.com/t1/v2.0",
       "https://login.microsoftonline.com/t1/"] :=
  C4_amended demoToken demoKey "t1" "api://app1" 1000
    (by decide) (by decide) (by decide) (by decide) (by decide) (by decide) (by decide)
    c4Token demoKey "t1" "app1" "https://login.microsoftonline.com/t1/v2.0" 1000
    (by decide) (by decide) (by decide) (by decide) (by decide) (by decide)

/-- C5: with both `ALLOWED_CLIENT_ID` and `TEST_CLIENT_ID` unset (empty),
the allow-list is empty and every successfully verified caller is
authorized: the handler answers 200 (never 403) and reports
`client_id_match = true`, whatever the resolved client id is. -/
theorem C5_theorem
    (cfg : Config) (hdr : String) (tok : Option JwtToken) (jwks : Option Jwks)
    (now : Nat) (p : Payload) (f : Bool)
    (hA : cfg.allowed_client_id = "") (hT : cfg.test_client_id = "")
    (ht : cfg.tenant_id ≠ "") (ha : cfg.app_id ≠ "")
    (hh : pyStartsWith hdr "Bearer " = true)
    (hv : tryAudiences tok jwks cfg.tenant_id now (expected_audiences cfg.app_id) =
      (Except.ok p, f)) :
    (HttpTrigger cfg hdr tok jwks now).1.status = 200 ∧
    bodyGet "validation.client_id_match" (HttpTrigger cfg hdr tok jwks now).1.body =
      some (JVal.b true) := by
  have hcfg : ¬(cfg.tenant_id = "" ∨ cfg.app_id = "") := not_or.mpr ⟨ht, ha⟩
  rw [HttpTrigger, if_neg hcfg, hh]
  simp only [Bool.not_true, Bool.false_eq_true, if_false, hv]
  rw [hA, hT]
  constructor
  · rfl
  · rfl

/-- C5 witness: demo configuration with an empty allow-list, demo token;
the handler answers 200 with `client_id_match = true`. -/
theorem C5_witness :
    (HttpTrigger demoCfg "Bearer x" (some demoToken) (some demoJwks) 1000).1.status = 200 ∧
    bodyGet "validation.client_id_match"
      (HttpTrigger demoCfg "Bearer x" (some demoToken) (some demoJwks) 1000).1.body =
      some (JVal.b true) :=
  C5_theorem demoCfg "Bearer x" (some demoToken) (some demoJwks) 1000
    demoPayload true rfl rfl (by decide) (by decide) (by decide) (by decide)

/-- C6: with a non-empty allow-list, the verdict is decided by exact string
membership of the resolved client id in the list of configured entries
stripped of surrounding whitespace: member → 200, non-member → 403.  As in
the claim's example, `"id-A"` is a member of `["id-A", "id-B"]` and `"id-C"`
is not. -/
theorem C6_theorem
    (cfg : Config) (hdr : String) (tok : Option JwtToken) (jwks : Option Jwks)
    (now : Nat) (p : Payload) (f : Bool)
    (ht : cfg.tenant_id ≠ "") (ha : cfg.app_id ≠ "")
    (hh : pyStartsWith hdr "Bearer " = true)
    (hv : tryAudiences tok jwks cfg.tenant_id now (expected_audiences cfg.app_id) =
      (Except.ok p, f))
    (hne : buildAllowedIds cfg.allowed_client_id cfg.test_client_id ≠ []) :
    ((HttpTrigger cfg hdr tok jwks now).1.status =
      if optMem (resolveClientId p.appid p.azp p.oid)
          (buildAllowedIds cfg.allowed_client_id cfg.test_client_id)
      then 200 else 403) ∧
    optMem (some "id-A") ["id-A", "id-B"] = true ∧
    optMem (some "id-C") ["id-A", "id-B"] = false := by
  refine ⟨?_, by decide, by decide⟩
  have hcfg : ¬(cfg.tenant_id = "" ∨ cfg.app_id = "") := not_or.mpr ⟨ht, ha⟩
  rw [HttpTrigger, if_neg hcfg, hh]
  simp only [Bool.not_true, Bool.false_eq_true, if_false, hv]
  have hie : (buildAllowedIds cfg.allowed_client_id cfg.test_client_id).isEmpty = false := by
    cases hb : buildAllowedIds cfg.allowed_client_id cfg.test_client_id with
    | nil => exact absurd hb hne
    | cons x xs => rfl
  cases hm : optMem (resolveClientId p.appid p.azp p.oid)
      (buildAllowedIds cfg.allowed_client_id cfg.test_client_id) with
  | false => simp [hie, hm]
  | true => simp [hie, hm]

/-- Configuration with the allow-list of the C6 example. -/
def c6Cfg : Config :=
  { allowed_client_id := "id-A", test_client_id := "id-B",
    tenant_id := "t1", app_id := "app1" }

/-- C6 witness: allow-list `["id-A", "id-B"]`, demo token resolving to
`"svc1"` (a non-member): the handler answers 403. -/
theorem C6_witness :
    ((HttpTrigger c6Cfg "Bearer x" (some demoToken) (some demoJwks) 1000).1.status =
      if optMem (resolveClientId demoPayload.appid demoPayload.azp demoPayload.oid)
          (buildAllowedIds c6Cfg.allowed_client_id c6Cfg.test_client_id)
      then 200 else 403) ∧
    optMem (some "id-A") ["id-A", "id-B"] = true ∧
    optMem (some "id-C") ["id-A", "id-B"] = false :=
  C6_theorem c6Cfg "Bearer x" (some demoToken) (some demoJwks) 1000 demoPayload true
    (by decide) (by decide) (by decide) (by decide) (by decide)

/-- C7 counterexample payload: expired (`exp = 10`, verification time 1000)
with otherwise valid issuer and audience. -/
def c7Payload : Payload :=
  { aud := some "api://app1", iss := some "https://sts.windows.net/t1/",
    exp := some 10, oid := some "user1" }

/-- Token carrying `c7Payload` with a forged signature. -/
def c7BadSigToken : JwtToken :=
  { kid := some "kid1", payload := c7Payload, sig := "forged" }

/-- C7 counterexample: a token whose `exp` is in the past but whose signature
is invalid is reported as a signature failure, not as the ExpiredToken
failure — the signature check precedes the expiry check, so the claim's
"regardless of whether its signature ... [is] otherwise valid" fails on
tokens with invalid signatures. -/
theorem C7_counterexample :
    c7BadSigToken.payload.exp = some 10 ∧ (10 : Nat) < 1000 ∧
    tryAudiences (some c7BadSigToken) (some demoJwks) "t1" 1000
      (expected_audiences "app1") = (Except.error VErr.invalidSignature, true) ∧
    VErr.invalidSignature ≠ VErr.expired := by decide

/-- C7 amended: provided the key resolves and the signature (RS256) and
`nbf` checks pass, a token whose `exp` is not in the future fails with the
ExpiredToken error for every audience candidate tried and for the whole
trial loop, regardless of the issuer and audience claims; the handler then
answers 401 with message "Token has expired". -/
theorem C7_amended
    (t : JwtToken) (keys : Jwks) (kid key : String) (e now : Nat)
    (hkid : t.kid = some kid) (hfind : findKey keys kid = some key)
    (halg : t.alg = "RS256") (hsig : t.sig = rs256Sign key t.payload)
    (hnbf : nbfCheck t.payload now = none)
    (hexp : t.payload.exp = some e) (he : e ≤ now) :
    (∀ tenant a, validate_jwt_token (some t) (some keys) tenant a now =
      (Except.error VErr.expired, true)) ∧
    (∀ tenant l, l ≠ [] → tryAudiences (some t) (some keys) tenant now l =
      (Except.error VErr.expired, true)) ∧
    errMessage VErr.expired = some "Token has expired" ∧
    (∀ cfg hdr, cfg.tenant_id ≠ "" → cfg.app_id ≠ "" →
      pyStartsWith hdr "Bearer " = true →
      (HttpTrigger cfg hdr (some t) (some keys) now).1.status = 401 ∧
      bodyGet "message" (HttpTrigger cfg hdr (some t) (some keys) now).1.body =
        some (JVal.os (some "Token has expired"))) := by
  have hval : ∀ tenant a, validate_jwt_token (some t) (some keys) tenant a now =
      (Except.error VErr.expired, true) := by
    intro tenant a
    simp [validate_jwt_token, hkid, hfind, decodeChecks, halg, hsig, hnbf,
      expCheck, hexp, he]
  have htry : ∀ tenant l, l ≠ [] →
      tryAudiences (some t) (some keys) tenant now l =
        (Except.error VErr.expired, true) := by
    intro tenant l
    induction l with
    | nil => intro h; exact absurd rfl h
    | cons a rest ih =>
      intro _
      cases rest with
      | nil => simp [tryAudiences, hval]
      | cons b rs =>
        have hr := ih (by simp)
        simp [tryAudiences, hval, hr]
  refine ⟨hval, htry, rfl, ?_⟩
  intro cfg hdr ht ha hh
  have hcfg : ¬(cfg.tenant_id = "" ∨ cfg.app_id = "") := not_or.mpr ⟨ht, ha⟩
  rw [HttpTrigger, if_neg hcfg, hh]
  simp only [Bool.not_true, Bool.false_eq_true, if_false,
    htry cfg.tenant_id (expected_audiences cfg.app_id) (by simp [expected_audiences])]
  exact ⟨by trivial, by rfl⟩

/-- C7 payload for the witness: expired, with invalid issuer and audience,
to exhibit that the ExpiredToken error wins over both. -/
def c7wPayload : Payload :=
  { aud := some "wrong-aud", iss := some "wrong-iss", exp := some 10,
    oid := some "user1" }

/-- Token carrying `c7wPayload`, correctly signed with `demoKey`. -/
def c7wToken : JwtToken :=
  { kid := some "kid1", payload := c7wPayload, sig := rs256Sign demoKey c7wPayload }

/-- C7 witness: the amended theorem applied to the expired, correctly signed
`c7wToken` whose issuer and audience are both invalid. -/
theorem C7_amended_witness :
    validate_jwt_token (some c7wToken) (some demoJwks) "t1" "api://app1" 1000 =
      (Except.error VErr.expired, true) ∧
    tryAudiences (some c7wToken) (some demoJwks) "t1" 1000
      (expected_audiences "app1") = (Except.error VErr.expired, true) ∧
    errMessage VErr.expired = some "Token has expired" ∧
    (HttpTrigger demoCfg "Bearer x" (some c7wToken) (some demoJwks) 1000).1.status = 401 ∧
    bodyGet "message"
      (HttpTrigger demoCfg "Bearer x" (some c7wToken) (some demoJwks) 1000).1.body =
      some (JVal.os (some "Token has expired")) := by
  have h := C7_amended c7wToken demoJwks "kid1" demoKey 10 1000
    (by decide) (by decide) (by decide) (by decide) (by decide) (by decide) (by decide)
  refine ⟨h.1 "t1" "api://app1", h.2.1 "t1" (expected_audiences "app1") (by decide),
    h.2.2.1, (h.2.2.2 demoCfg "Bearer x" (by decide) (by decide) (by decide)).1,
    (h.2.2.2 demoCfg "Bearer x" (by decide) (by decide) (by decide)).2⟩

/-- C8: when the `Authorization` header is absent (Python default `""`) or
does not start with `"Bearer "`, the function-app handler (given its server
configuration is present) returns exactly the fixed 401 error body with the
JWKS-consulted flag `false`, for every token and key-set state — so neither
a key-set fetch nor any token processing influences the response; the
scenario3 decorator likewise fails with its fixed 401
"Missing or invalid Authorization header" body for every token and key-set
state. -/
theorem C8_theorem
    (cfg : Config) (hdr : String) (tok : Option JwtToken) (jwks : Option Jwks)
    (now : Nat)
    (ht : cfg.tenant_id ≠ "") (ha : cfg.app_id ≠ "")
    (hh : pyStartsWith hdr "Bearer " = false) :
    HttpTrigger cfg hdr tok jwks now =
      ({ status := 401, body := authRequiredBody }, false) ∧
    scenario3Validate { tenant_id := "t1", client_id := "app1" } hdr tok jwks now =
      Except.error S3Err.missingAuthHeader ∧
    (∀ s3cfg : S3Config, s3Response s3cfg hdr tok jwks now =
      (401, [("error", JVal.s "Missing or invalid Authorization header")])) := by
  have hcfg : ¬(cfg.tenant_id = "" ∨ cfg.app_id = "") := not_or.mpr ⟨ht, ha⟩
  refine ⟨?_, ?_, ?_⟩
  · rw [HttpTrigger, if_neg hcfg, hh]
    rfl
  · rw [scenario3Validate.eq_def, hh]
    rfl
  · intro s3cfg
    rw [s3Response, scenario3Validate.eq_def, hh]
    rfl

/-- C8 witness: the malformed header `"Token xyz"` of the claim's scenario,
with the demo configuration, a decodable token and a reachable key set. -/
theorem C8_witness :
    HttpTrigger demoCfg "Token xyz" (some demoToken) (some demoJwks) 1000 =
      ({ status := 401, body := authRequiredBody }, false) ∧
    scenario3Validate { tenant_id := "t1", client_id := "app1" } "Token xyz"
      (some demoToken) (some demoJwks) 1000 =
      Except.error S3Err.missingAuthHeader ∧
    (∀ s3cfg : S3Config, s3Response s3cfg "Token xyz" (some demoToken)
      (some demoJwks) 1000 =
      (401, [("error", JVal.s "Missing or invalid Authorization header")])) :=
  C8_theorem demoCfg "Token xyz" (some demoToken) (some demoJwks) 1000
    (by decide) (by decide) (by decide)

/-- World for the C9 counterexample: the very first network fetch fails,
every later fetch succeeds (the origin recovers). -/
def c9World : Nat → String → Option Jwks :=
  fun k _ => if k = 0 then none else some demoJwks

/-- C9 counterexample: `get_jwks_keys` is memoized with `maxsize=1`, not per
tenant.  Calling tenants A, B, A from a cold cache performs three fetches:
the call for B evicts the entry for A, so the third call — same tenant as
the first — fetches again and (the origin having recovered) returns a
different result than the cached failure of the first call, refuting
"every subsequent call with the same tenant returns that identical cached
result without performing any new network fetch". -/
theorem C9_counterexample :
    runJwksCalls c9World ["tenantA", "tenantB", "tenantA"] {} 0 =
      [(none, true), (some demoJwks, true), (some demoJwks, true)] ∧
    (runJwksCalls c9World ["tenantA", "tenantB", "tenantA"] {} 0)[2]? ≠
      (runJwksCalls c9World ["tenantA", "tenantB", "tenantA"] {} 0)[0]? ∧
    ((runJwksCalls c9World ["tenantA", "tenantB", "tenantA"] {} 0)[2]?).map
      Prod.snd = some true := by decide

/-- C9 amended: the `lru_cache(maxsize=1)` memoizes the single most recent
tenant, caching failures as well: an immediate repeat of a call with the
same tenant returns the identical stored result (including a stored `None`
failure) with no new fetch and unchanged cache and fetch counter; and while
the cached result for the tenant is a failure, validation keeps failing with
the key-fetch error.  A call with a different tenant, however, evicts the
single entry and refetches. -/
theorem C9_amended
    (world : Nat → String → Option Jwks) (k : Nat) (c : JwksCache) (t : String) :
    get_jwks_keys world (get_jwks_keys world k c t).2.2.1
        (get_jwks_keys world k c t).2.1 t =
      ((get_jwks_keys world k c t).1, (get_jwks_keys world k c t).2.1,
        (get_jwks_keys world k c t).2.2.1, false) ∧
    (∀ (t2 : JwtToken) (kid : String) (tenant a : String) (now : Nat),
      t2.kid = some kid →
      validate_jwt_token (some t2) none tenant a now =
        (Except.error VErr.jwksFailed, true)) := by
  constructor
  · match hc : c.entry with
    | none => simp [get_jwks_keys, hc]
    | some (t0, r0) =>
      by_cases ht : t0 = t
      · simp [get_jwks_keys, hc, ht]
      · simp [get_jwks_keys, hc, ht]
  · intro t2 kid tenant a now hk
    simp [validate_jwt_token, hk]

/-- C9 witness: the amended theorem applied after a failed fetch for
`tenantA` from a cold cache (the repeat call returns the cached `None`
without fetching), and to a token whose validation hits the cached
failure. -/
theorem C9_amended_witness :
    get_jwks_keys c9World (get_jwks_keys c9World 0 {} "tenantA").2.2.1
        (get_jwks_keys c9World 0 {} "tenantA").2.1 "tenantA" =
      ((get_jwks_keys c9World 0 {} "tenantA").1,
        (get_jwks_keys c9World 0 {} "tenantA").2.1,
        (get_jwks_keys c9World 0 {} "tenantA").2.2.1, false) ∧
    (∀ (t2 : JwtToken) (kid : String) (tenant a : String) (now : Nat),
      t2.kid = some kid →
      validate_jwt_token (some t2) none tenant a now =
        (Except.error VErr.jwksFailed, true)) :=
  C9_amended c9World 0 {} "tenantA"

/-- C10: whenever the function-app handler answers 401 after a Bearer token
was presented (whatever verification step failed), the body carries the
`received_audience` field (the `aud` claim read without signature
verification, or the fixed marker for an undecodable token) and the full
`expected_audiences` list. -/
theorem C10_theorem
    (cfg : Config) (hdr : String) (tok : Option JwtToken) (jwks : Option Jwks)
    (now : Nat)
    (ht : cfg.tenant_id ≠ "") (ha : cfg.app_id ≠ "")
    (hh : pyStartsWith hdr "Bearer " = true)
    (h401 : (HttpTrigger cfg hdr tok jwks now).1.status = 401) :
    bodyGet "received_audience" (HttpTrigger cfg hdr tok jwks now).1.body =
      some (JVal.os (receivedAudience tok)) ∧
    bodyGet "expected_audiences" (HttpTrigger cfg hdr tok jwks now).1.body =
      some (JVal.arr (expected_audiences cfg.app_id)) := by
  have hcfg : ¬(cfg.tenant_id = "" ∨ cfg.app_id = "") := not_or.mpr ⟨ht, ha⟩
  rw [HttpTrigger, if_neg hcfg, hh] at h401 ⊢
  simp only [Bool.not_true, Bool.false_eq_true, if_false] at h401 ⊢
  cases hv : tryAudiences tok jwks cfg.tenant_id now (expected_audiences cfg.app_id) with
  | mk r f =>
    cases r with
    | error e => exact ⟨rfl, rfl⟩
    | ok p =>
      rw [hv] at h401
      by_cases hm : (!(buildAllowedIds cfg.allowed_client_id
          cfg.test_client_id).isEmpty &&
          !optMem (resolveClientId p.appid p.azp p.oid)
            (buildAllowedIds cfg.allowed_client_id cfg.test_client_id)) = true
      · simp only [hm, if_true] at h401
        exact absurd h401 (by decide)
      · simp only [Bool.not_eq_true] at hm
        simp only [hm, Bool.false_eq_true, if_false] at h401
        exact absurd h401 (by decide)

/-- C10 witness: an expired (correctly signed) token produces a 401 whose
body carries both diagnostic fields. -/
theorem C10_witness :
    bodyGet "received_audience"
      (HttpTrigger demoCfg "Bearer x" (some c7wToken) (some demoJwks) 1000).1.body =
      some (JVal.os (receivedAudience (some c7wToken))) ∧
    bodyGet "expected_audiences"
      (HttpTrigger demoCfg "Bearer x" (some c7wToken) (some demoJwks) 1000).1.body =
      some (JVal.arr (expected_audiences demoCfg.app_id)) :=
  C10_theorem demoCfg "Bearer x" (some c7wToken) (some demoJwks) 1000
    (by decide) (by decide) (by decide) (by decide)
